import Mathlib

/-!
# Verification of the cartero benchmark consumer core

Shallow embedding of `src/client/benchmarkconsumer.go`: the slot ring and its
two-lock handshake, the feeder loop (findDownloadableObjectsBenchmark), the
downloader worker body (downloadObjectsBenchmark), the consumer operation
(NextObject), the shutdown path (Close) and the metrics aggregation (Metrics).

Conventions of the embedding:
- Go `sync.Mutex` state is a Bool (`true` = currently held/locked).  A blocking
  `Lock()` on a held mutex is modeled as `Option`-failure (`none` = the caller
  blocks in the snapshot being considered).
- Go channels carry their sent values as lists in send order; an N-way receive
  that cannot find N sent values is `none` (the receiver blocks).
- `close` of the `done` channel follows Go semantics: closing an already
  closed channel panics, modeled as `none`.
- `uint64` arithmetic is `Nat` reduced modulo `2 ^ 64`.  Object sizes and the
  byte count returned by `io.Copy` are modeled as `Nat` (the storage contract
  delivers nonnegative byte counts).
- External I/O outcomes (GetObject / Stat errors, copy result, first-byte
  timestamp) are inputs of the embedded step functions.
- Log calls are recorded as lists of the message strings the code passes to
  the logger, so claims about logging are statable.
-/

namespace Cartero

/-- The uint64 modulus. -/
def U64 : Nat := 2 ^ 64

/-- One entry of the slot ring (`benchmarkObjectInDownload` in the source):
name and size of the object occupying the slot, plus the held/free state of
its two mutexes (`readLock` and `changeObjectLock`). -/
structure Slot where
  size : Nat
  name : String
  readLockHeld : Bool
  changeObjectLockHeld : Bool
deriving Repr, DecidableEq

/-- At construction every slot has its readLock taken (`object.readLock.Lock()`
in NewBenchmarkConsumer) and holds no object. -/
instance : Inhabited Slot :=
  ⟨{ size := 0, name := "", readLockHeld := true, changeObjectLockHeld := false }⟩

/-- Worker-local counters of downloadObjectsBenchmark: the latency samples,
files downloaded and bytes downloaded accumulated by one worker goroutine. -/
structure WorkerLocal where
  latencies : List Int
  filesDownloaded : Nat
  bytesDownloaded : Nat
deriving Repr, DecidableEq

/-- The worker-local state at goroutine start: empty latency list, zero
counters. -/
def WorkerLocal.init : WorkerLocal :=
  { latencies := [], filesDownloaded := 0, bytesDownloaded := 0 }

/-- One download task together with the outcome of the external I/O it
triggers: the assignment fields (`name`, `bufferPosition`), whether GetObject
and Stat fail, the declared size from Stat, the byte count returned by
io.Copy, whether the copy errors, the latency value that would be sampled
(fbr.t.Sub(start)), and the value of CollectMetrics observed under the
RLock. -/
structure TaskInput where
  name : String
  bufferPosition : Nat
  getErr : Bool
  statErr : Bool
  statSize : Nat
  bytesRead : Nat
  copyErr : Bool
  latValue : Int
  collect : Bool
deriving Repr, DecidableEq

/-- Result of running the task branch of the worker select once: the updated
worker-local counters, the updated slot, whether the worker goroutine does
not continue to the next assignment (it returned early or panicked), whether
it panicked, and the log messages it emitted. -/
structure DownloadOutcome where
  st : WorkerLocal
  slot : Slot
  exited : Bool
  panicked : Bool
  logs : List String
deriving Repr, DecidableEq

/-- The body of the `case downloadTask := <-c.downloadTasks` branch of
downloadObjectsBenchmark, lines 154-201 of the source, as a function of the
worker-local state, the slot at the task position, and the I/O outcome.

Traced from the source: the slot name is written first; a GetObject or Stat
error logs and returns (early exit, readLock untouched); a declared size of 0
logs, bumps filesDownloaded under the collect toggle, writes size 0 and
releases readLock; otherwise copy problems are logged and then, when the
collect toggle is on, the code computes the latency sample fbr.t.Sub(start).
The field fbr.t is a nil pointer exactly when the copy transferred zero
bytes (the recorder sets it only on a first read that returns at least one
byte), and time.Time.Sub has a value receiver, so that call dereferences nil
and the goroutine panics — after the Collecting metrics log but before any
counter update, slot size write or readLock release.  When at least one byte
was read the collect-gated block appends the latency sample, bumps
filesDownloaded and adds the declared size (stats.Size, not the copy count)
to bytesDownloaded; in every non-panicking path the slot size is then set to
the copy count n and readLock is released. -/
def downloadBody (st : WorkerLocal) (slot : Slot) (t : TaskInput) : DownloadOutcome :=
  let slot := { slot with name := t.name }
  let logs := ["Starting download of new object"]
  if t.getErr then
    { st := st, slot := slot, exited := true, panicked := false,
      logs := logs ++ ["Failed to download object from s3"] }
  else if t.statErr then
    { st := st, slot := slot, exited := true, panicked := false,
      logs := logs ++ ["Failed to get object stats"] }
  else if t.statSize = 0 then
    let logs := logs ++ ["Downloaded object of size 0"]
    let st := if t.collect then { st with filesDownloaded := st.filesDownloaded + 1 } else st
    let slot := { slot with size := 0, readLockHeld := false }
    { st := st, slot := slot, exited := false, panicked := false, logs := logs }
  else
    let logs := logs ++ (if t.copyErr then ["Failed to copy object data"] else [])
    let logs := logs ++ (if t.bytesRead ≠ t.statSize then ["Read less bytes than expected"] else [])
    if t.collect then
      if t.bytesRead = 0 then
        { st := st, slot := slot, exited := true, panicked := true,
          logs := logs ++ ["Collecting metrics"] }
      else
        let st :=
          { st with
            latencies := st.latencies ++ [t.latValue],
            filesDownloaded := st.filesDownloaded + 1,
            bytesDownloaded := (st.bytesDownloaded + t.statSize) % U64 }
        let slot := { slot with size := t.bytesRead, readLockHeld := false }
        { st := st, slot := slot, exited := false, panicked := false,
          logs := logs ++ ["Collecting metrics", "Unlocked read lock"] }
    else
      let slot := { slot with size := t.bytesRead, readLockHeld := false }
      { st := st, slot := slot, exited := false, panicked := false,
        logs := logs ++ ["Unlocked read lock"] }

/-- Consumer-side state of the BenchmarkConsumer: the unsynchronized consumer
position and the consumer-side counters. -/
structure ConsumerState where
  nextObjectBufferPosition : Nat
  bytesConsumed : Nat
  filesConsumed : Nat
deriving Repr, DecidableEq

/-- NextObject, lines 205-218 of the source: read the slot at the current
consumer position, acquire its readLock (blocking, hence `none`, while a
worker still holds it), update the consumption counters under the collect
toggle, release the changeObjectLock.  Traced from the source: the field
nextObjectBufferPosition is read but never written. -/
def nextObject (c : ConsumerState) (slots : List Slot) (collect : Bool) :
    Option (ConsumerState × List Slot) :=
  match slots.get? c.nextObjectBufferPosition with
  | none => none
  | some slot =>
    if slot.readLockHeld then
      none
    else
      let slot1 : Slot := { slot with readLockHeld := true }
      let c1 : ConsumerState :=
        if collect then
          { c with
            bytesConsumed := (c.bytesConsumed + slot1.size) % U64,
            filesConsumed := c.filesConsumed + 1 }
        else c
      let slot2 : Slot := { slot1 with changeObjectLockHeld := false }
      some (c1, slots.set c.nextObjectBufferPosition slot2)

/-! ## Feeder (findDownloadableObjectsBenchmark) -/

/-- The mutable loop variables of the forever loop of
findDownloadableObjectsBenchmark: the replay index into the listed keys and
the next slot position. -/
structure FeederState where
  index : Nat
  bufferPosition : Nat
deriving Repr, DecidableEq

/-- One iteration of the forever loop (lines 102-120 of the source).  The
select has two cases: receiving from the done channel, and a default branch.
Once the done channel is closed, receiving from it is always immediately
possible, so Go never chooses the default branch: the iteration only logs and
publishes no assignment.  While done is open the receive can never proceed and
the default branch runs: it logs the start of a circle when the index is 0,
publishes the assignment (keys[index], bufferPosition), and advances both the
index modulo the number of keys and the buffer position modulo N. -/
def feederLoopIter (keys : List String) (N : Nat) (doneClosed : Bool) (s : FeederState) :
    FeederState × Option (String × Nat) × List String :=
  if doneClosed then
    (s, none, ["Stop feeding downloadable objects"])
  else
    (⟨(s.index + 1) % keys.length, (s.bufferPosition + 1) % N⟩,
     some (keys.getD s.index "", s.bufferPosition),
     if s.index = 0 then ["Starting new circle"] else [])

/-- The assignments published by m iterations of the forever loop, starting
from feeder state s. -/
def feederLoopRun (keys : List String) (N : Nat) (doneClosed : Bool) :
    FeederState → Nat → List (String × Nat)
  | _, 0 => []
  | s, m + 1 =>
    (feederLoopIter keys N doneClosed s).2.1.toList
      ++ feederLoopRun keys N doneClosed (feederLoopIter keys N doneClosed s).1 m

/-- The initial pass of the feeder (lines 90-99 of the source): one assignment
per listed key, with the buffer position starting at 0 and advancing modulo N
after each send. -/
def feederInitialPass (keys : List String) (N : Nat) (bp : Nat) : List (String × Nat) :=
  match keys with
  | [] => []
  | k :: rest => (k, bp) :: feederInitialPass rest N ((bp + 1) % N)

/-- All assignments the feeder publishes before shutdown, in order: the
initial pass over the listed keys (buffer position starting at 0), then m
iterations of the forever loop, which starts at index 0 and at the buffer
position the initial pass ended on, namely keys.length modulo N. -/
def feederAssignments (keys : List String) (N : Nat) (m : Nat) : List (String × Nat) :=
  feederInitialPass keys N 0
    ++ feederLoopRun keys N false ⟨0, keys.length % N⟩ m

/-! ## Shutdown (Close) and the done channel -/

/-- Go semantics of `close` on the done channel: closing a not-yet-closed
channel marks it closed; closing an already closed channel panics, modeled
as `none`. -/
def closeDoneChannel (doneClosed : Bool) : Option Bool :=
  if doneClosed then none else some true

/-- Close, lines 220-224 of the source: log, then close the done channel.
Returns the log messages and the new channel state, or `none` when the close
panics. -/
def closeBenchmarkConsumer (doneClosed : Bool) : Option (List String × Bool) :=
  match closeDoneChannel doneClosed with
  | none => none
  | some b => some (["Finished consume call"], b)

/-! ## Worker goroutine life cycle and metrics aggregation -/

/-- What the worker select can observe in one loop round: the done channel
being closed, or a download task (with its I/O outcome) arriving. -/
inductive WorkerEvent where
  | done
  | task (t : TaskInput)
deriving Repr, DecidableEq

/-- The whole downloadObjectsBenchmark loop over a sequence of observed
events, threading the slot ring.  Returns the worker-local counters the
worker sends on the three aggregation channels — `none` when the worker never
reaches the done branch, either because it returned early on a GetObject or
Stat error or because the event list is exhausted — together with the final
slot ring. -/
def workerRun (st : WorkerLocal) (slots : List Slot) :
    List WorkerEvent → Option WorkerLocal × List Slot
  | [] => (none, slots)
  | WorkerEvent.done :: _ => (some st, slots)
  | WorkerEvent.task t :: rest =>
    let o := downloadBody st (slots.getD t.bufferPosition default) t
    let slots1 := slots.set t.bufferPosition o.slot
    if o.exited then (none, slots1) else workerRun o.st slots1 rest

/-- The final report of Metrics (lines 226-244 of the source). -/
structure MinioMetrics where
  FilesDownloaded : Nat
  BytesDownloaded : Nat
  FilesConsumed : Nat
  BytesConsumed : Nat
  FirstByteLatencies : List Int
deriving Repr, DecidableEq

/-- Metrics: perform `conc` receives on the latency channel, then `conc`
receives each on the file and byte channels, and merge with the consumer-side
counters.  The channels are modeled by the lists of values sent on them in
receive order; when any channel carries fewer than `conc` sent values the
receives cannot all complete and Metrics blocks (`none`). -/
def metricsCollect (conc : Nat) (latSent : List (List Int))
    (filesSent bytesSent : List Nat) (c : ConsumerState) : Option MinioMetrics :=
  if conc ≤ latSent.length ∧ conc ≤ filesSent.length ∧ conc ≤ bytesSent.length then
    some
      { FirstByteLatencies := (latSent.take conc).flatten,
        FilesDownloaded := (filesSent.take conc).foldl (· + ·) 0,
        BytesDownloaded := (bytesSent.take conc).foldl (fun a b => (a + b) % U64) 0,
        FilesConsumed := c.filesConsumed,
        BytesConsumed := c.bytesConsumed }
  else none

/-! ## First-byte recorder (firstByteRecorder.Read) -/

/-- A deterministic model of the underlying io.Reader: the list of responses
it will give to successive Read calls, each response being the byte count it
has available for that call (capped by the request size, as the io.Reader
contract requires n ≤ len(p)) and whether the call reports an error.  An
exhausted response list reads 0 bytes with an error. -/
def readerRead (rs : List (Nat × Bool)) (k : Nat) : (Nat × Bool) × List (Nat × Bool) :=
  match rs with
  | [] => ((0, true), [])
  | resp :: rest => ((min k resp.1, resp.2), rest)

/-- The mutable state of the firstByteRecorder: the recorded timestamp, if
any (the field `t *time.Time`). -/
structure FirstByteRecorderState where
  t : Option Nat
deriving Repr, DecidableEq

/-- Everything one call to firstByteRecorder.Read produces: the byte count
and error returned, the recorder state and remaining reader after the call,
and the size of the request passed down to the underlying reader. -/
structure FbrReadResult where
  n : Nat
  err : Bool
  fbr : FirstByteRecorderState
  reader : List (Nat × Bool)
  requested : Nat
deriving Repr, DecidableEq

/-- firstByteRecorder.Read, lines 128-139 of the source: when a timestamp was
already recorded or the buffer is empty, delegate the full request to the
underlying reader; otherwise request a single byte (p[:1]) and record the
current time exactly when that read returns n > 0. -/
def fbrRead (f : FirstByteRecorderState) (rs : List (Nat × Bool)) (plen : Nat)
    (now : Nat) : FbrReadResult :=
  if f.t.isSome ∨ plen = 0 then
    let r := readerRead rs plen
    { n := r.1.1, err := r.1.2, fbr := f, reader := r.2, requested := plen }
  else
    let r := readerRead rs 1
    if 0 < r.1.1 then
      { n := r.1.1, err := r.1.2, fbr := { t := some now }, reader := r.2, requested := 1 }
    else
      { n := r.1.1, err := r.1.2, fbr := f, reader := r.2, requested := 1 }

/-! ## Claims about the worker download path -/

/-- Claim C4: for every downloaded object whose declared size is 0, the worker
sets the slot size field to 0, releases the slot readLock, contributes no
first-byte latency sample, and increments its files-downloaded counter if and
only if metrics collection is enabled at that moment. -/
theorem zero_size_download_path (st : WorkerLocal) (slot : Slot) (t : TaskInput)
    (hg : t.getErr = false) (hs : t.statErr = false) (hz : t.statSize = 0) :
    (downloadBody st slot t).slot.size = 0 ∧
    (downloadBody st slot t).slot.readLockHeld = false ∧
    (downloadBody st slot t).st.latencies = st.latencies ∧
    (downloadBody st slot t).st.filesDownloaded
      = (if t.collect then st.filesDownloaded + 1 else st.filesDownloaded) := by
  cases hc : t.collect <;> simp [downloadBody, hg, hs, hz, hc]

/-- Witness for C4: a concrete zero-size download with collection enabled. -/
theorem zero_size_download_path_witness :
    (downloadBody WorkerLocal.init default
        { name := "z", bufferPosition := 0, getErr := false, statErr := false,
          statSize := 0, bytesRead := 0, copyErr := false, latValue := 0,
          collect := true }).slot.size = 0 ∧
    (downloadBody WorkerLocal.init default
        { name := "z", bufferPosition := 0, getErr := false, statErr := false,
          statSize := 0, bytesRead := 0, copyErr := false, latValue := 0,
          collect := true }).slot.readLockHeld = false ∧
    (downloadBody WorkerLocal.init default
        { name := "z", bufferPosition := 0, getErr := false, statErr := false,
          statSize := 0, bytesRead := 0, copyErr := false, latValue := 0,
          collect := true }).st.latencies = WorkerLocal.init.latencies ∧
    (downloadBody WorkerLocal.init default
        { name := "z", bufferPosition := 0, getErr := false, statErr := false,
          statSize := 0, bytesRead := 0, copyErr := false, latValue := 0,
          collect := true }).st.filesDownloaded
      = (if true then WorkerLocal.init.filesDownloaded + 1
         else WorkerLocal.init.filesDownloaded) :=
  zero_size_download_path WorkerLocal.init default _ rfl rfl rfl

/-- Counterexample for C5: with declared size 5 but only 3 bytes transferred
by the copy, the bytes-downloaded counter grows by 5 (the declared size), not
by the byte count returned by the copy as the claim states. -/
theorem bytes_counter_ignores_copy_count :
    (downloadBody WorkerLocal.init default
        { name := "x", bufferPosition := 0, getErr := false, statErr := false,
          statSize := 5, bytesRead := 3, copyErr := false, latValue := 1,
          collect := true }).st.bytesDownloaded = 5 ∧
    (downloadBody WorkerLocal.init default
        { name := "x", bufferPosition := 0, getErr := false, statErr := false,
          statSize := 5, bytesRead := 3, copyErr := false, latValue := 1,
          collect := true }).st.bytesDownloaded
      ≠ WorkerLocal.init.bytesDownloaded + 3 := by
  constructor
  · rfl
  · decide

/-- Claim C5 as amended: when metrics collection is enabled, a download of a
non-empty object whose copy transferred at least one byte increases the
bytes-downloaded counter by the declared size from the stat call (uint64
arithmetic), not by the byte count returned by the copy; when the copy
transferred zero bytes the worker panics on the nil first-byte timestamp
before any counter update, so the counter does not change at all. -/
theorem bytes_counter_adds_declared_size (st : WorkerLocal) (slot : Slot)
    (t : TaskInput) (hg : t.getErr = false) (hs : t.statErr = false)
    (hz : t.statSize ≠ 0) (hc : t.collect = true) :
    (t.bytesRead ≠ 0 →
      (downloadBody st slot t).st.bytesDownloaded
        = (st.bytesDownloaded + t.statSize) % U64) ∧
    (t.bytesRead = 0 →
      (downloadBody st slot t).panicked = true ∧
      (downloadBody st slot t).st.bytesDownloaded = st.bytesDownloaded) := by
  constructor
  · intro hb
    simp [downloadBody, hg, hs, hz, hc, hb]
  · intro hb
    simp [downloadBody, hg, hs, hz, hc, hb]

/-- Witness for the amended C5: a concrete mismatch download with 3 bytes
read adds the declared size 5 modulo 2 to the 64, and a concrete download
with 0 bytes read panics leaving the counter at its old value. -/
theorem bytes_counter_adds_declared_size_witness :
    ((downloadBody WorkerLocal.init default
        { name := "x", bufferPosition := 1, getErr := false, statErr := false,
          statSize := 5, bytesRead := 3, copyErr := false, latValue := 1,
          collect := true }).st.bytesDownloaded
      = (WorkerLocal.init.bytesDownloaded + 5) % U64) ∧
    ((downloadBody WorkerLocal.init default
        { name := "x0", bufferPosition := 1, getErr := false, statErr := false,
          statSize := 5, bytesRead := 0, copyErr := true, latValue := 1,
          collect := true }).panicked = true ∧
     (downloadBody WorkerLocal.init default
        { name := "x0", bufferPosition := 1, getErr := false, statErr := false,
          statSize := 5, bytesRead := 0, copyErr := true, latValue := 1,
          collect := true }).st.bytesDownloaded
       = WorkerLocal.init.bytesDownloaded) :=
  ⟨(bytes_counter_adds_declared_size WorkerLocal.init default _ rfl rfl
      (by decide) rfl).1 (by decide),
   (bytes_counter_adds_declared_size WorkerLocal.init default _ rfl rfl
      (by decide) rfl).2 rfl⟩

/-- Counterexample for C6: a copy that transfers zero bytes of a non-empty
object while collection is enabled (a byte-count mismatch, so the claim
applies) makes the worker panic on the nil first-byte timestamp: it exits
instead of continuing, the slot size stays at its old value 9 instead of
being set to the 0 bytes read, and the readLock is not released. -/
theorem copy_zero_bytes_panics :
    (downloadBody WorkerLocal.init
        { size := 9, name := "old", readLockHeld := true,
          changeObjectLockHeld := true }
        { name := "p", bufferPosition := 0, getErr := false, statErr := false,
          statSize := 5, bytesRead := 0, copyErr := true, latValue := 0,
          collect := true }).exited = true ∧
    (downloadBody WorkerLocal.init
        { size := 9, name := "old", readLockHeld := true,
          changeObjectLockHeld := true }
        { name := "p", bufferPosition := 0, getErr := false, statErr := false,
          statSize := 5, bytesRead := 0, copyErr := true, latValue := 0,
          collect := true }).panicked = true ∧
    (downloadBody WorkerLocal.init
        { size := 9, name := "old", readLockHeld := true,
          changeObjectLockHeld := true }
        { name := "p", bufferPosition := 0, getErr := false, statErr := false,
          statSize := 5, bytesRead := 0, copyErr := true, latValue := 0,
          collect := true }).slot.size = 9 ∧
    (downloadBody WorkerLocal.init
        { size := 9, name := "old", readLockHeld := true,
          changeObjectLockHeld := true }
        { name := "p", bufferPosition := 0, getErr := false, statErr := false,
          statSize := 5, bytesRead := 0, copyErr := true, latValue := 0,
          collect := true }).slot.readLockHeld = true := by
  refine ⟨rfl, rfl, rfl, rfl⟩

/-- Claim C6 as amended: if the copy of a non-empty object errors or reads a
byte count different from the declared size, the worker logs the problem; if
collection is disabled or at least one byte was read, it still sets the slot
size to the bytes actually read, releases the slot readLock and does not exit
its loop; but if collection is enabled and zero bytes were read, the worker
panics on the nil first-byte timestamp, leaving its counters, the slot size
and the readLock untouched. -/
theorem copy_problem_logged_slot_completion (st : WorkerLocal) (slot : Slot)
    (t : TaskInput) (hg : t.getErr = false) (hs : t.statErr = false)
    (hz : t.statSize ≠ 0) (hp : t.copyErr = true ∨ t.bytesRead ≠ t.statSize) :
    ("Failed to copy object data" ∈ (downloadBody st slot t).logs ∨
     "Read less bytes than expected" ∈ (downloadBody st slot t).logs) ∧
    (t.collect = false ∨ t.bytesRead ≠ 0 →
      (downloadBody st slot t).exited = false ∧
      (downloadBody st slot t).slot.size = t.bytesRead ∧
      (downloadBody st slot t).slot.readLockHeld = false) ∧
    (t.collect = true → t.bytesRead = 0 →
      (downloadBody st slot t).panicked = true ∧
      (downloadBody st slot t).st = st ∧
      (downloadBody st slot t).slot.size = slot.size ∧
      (downloadBody st slot t).slot.readLockHeld = slot.readLockHeld) := by
  refine ⟨?_, ?_, ?_⟩
  · rcases hp with hp | hp
    · left
      by_cases hc : t.collect = true <;> by_cases hb : t.bytesRead = 0 <;>
        simp [downloadBody, hg, hs, hz, hp, hc, hb]
    · right
      by_cases hc : t.collect = true <;> by_cases hb : t.bytesRead = 0 <;>
        simp [downloadBody, hg, hs, hz, Ne.symm hz, hp, hc, hb]
  · intro hnp
    rcases hnp with hc | hb
    · simp [downloadBody, hg, hs, hz, hc]
    · by_cases hc : t.collect = true <;>
        simp [downloadBody, hg, hs, hz, hb, hc]
  · intro hc hb
    simp [downloadBody, hg, hs, hz, hc, hb]

/-- Witness for the amended C6: a concrete mismatch with collection off
completes the slot and continues, and a concrete zero-byte copy with
collection on panics leaving state untouched. -/
theorem copy_problem_logged_slot_completion_witness :
    ("Failed to copy object data" ∈ (downloadBody WorkerLocal.init default
        { name := "y", bufferPosition := 0, getErr := false, statErr := false,
          statSize := 9, bytesRead := 4, copyErr := false, latValue := 2,
          collect := false }).logs ∨
     "Read less bytes than expected" ∈ (downloadBody WorkerLocal.init default
        { name := "y", bufferPosition := 0, getErr := false, statErr := false,
          statSize := 9, bytesRead := 4, copyErr := false, latValue := 2,
          collect := false }).logs) ∧
    ((downloadBody WorkerLocal.init default
        { name := "y", bufferPosition := 0, getErr := false, statErr := false,
          statSize := 9, bytesRead := 4, copyErr := false, latValue := 2,
          collect := false }).exited = false ∧
     (downloadBody WorkerLocal.init default
        { name := "y", bufferPosition := 0, getErr := false, statErr := false,
          statSize := 9, bytesRead := 4, copyErr := false, latValue := 2,
          collect := false }).slot.size = 4 ∧
     (downloadBody WorkerLocal.init default
        { name := "y", bufferPosition := 0, getErr := false, statErr := false,
          statSize := 9, bytesRead := 4, copyErr := false, latValue := 2,
          collect := false }).slot.readLockHeld = false) ∧
    ((downloadBody WorkerLocal.init default
        { name := "q", bufferPosition := 0, getErr := false, statErr := false,
          statSize := 5, bytesRead := 0, copyErr := false, latValue := 0,
          collect := true }).panicked = true ∧
     (downloadBody WorkerLocal.init default
        { name := "q", bufferPosition := 0, getErr := false, statErr := false,
          statSize := 5, bytesRead := 0, copyErr := false, latValue := 0,
          collect := true }).st = WorkerLocal.init ∧
     (downloadBody WorkerLocal.init default
        { name := "q", bufferPosition := 0, getErr := false, statErr := false,
          statSize := 5, bytesRead := 0, copyErr := false, latValue := 0,
          collect := true }).slot.size = (default : Slot).size ∧
     (downloadBody WorkerLocal.init default
        { name := "q", bufferPosition := 0, getErr := false, statErr := false,
          statSize := 5, bytesRead := 0, copyErr := false, latValue := 0,
          collect := true }).slot.readLockHeld = (default : Slot).readLockHeld) :=
  ⟨(copy_problem_logged_slot_completion WorkerLocal.init default _ rfl rfl
      (by decide) (Or.inr (by decide))).1,
   (copy_problem_logged_slot_completion WorkerLocal.init default _ rfl rfl
      (by decide) (Or.inr (by decide))).2.1 (Or.inl rfl),
   (copy_problem_logged_slot_completion WorkerLocal.init default _ rfl rfl
      (by decide) (Or.inr (by decide))).2.2 rfl rfl⟩

/-- Claim C7: while the collection toggle is false, a download completion
leaves all worker-local counters unchanged while still writing the slot name
and size and releasing the readLock, and a take-next-object call leaves the
consumption counters unchanged while still acquiring the readLock and
releasing the changeObjectLock. -/
theorem toggle_off_leaves_counters_unchanged :
    (∀ (st : WorkerLocal) (slot : Slot) (t : TaskInput),
      t.collect = false → t.getErr = false → t.statErr = false →
      (downloadBody st slot t).st = st ∧
      (downloadBody st slot t).slot.name = t.name ∧
      (downloadBody st slot t).slot.readLockHeld = false ∧
      (downloadBody st slot t).slot.size
        = (if t.statSize = 0 then 0 else t.bytesRead)) ∧
    (∀ (c : ConsumerState) (slots : List Slot) (res : ConsumerState × List Slot),
      nextObject c slots false = some res →
      res.1.bytesConsumed = c.bytesConsumed ∧
      res.1.filesConsumed = c.filesConsumed ∧
      ∃ slot, slots.get? c.nextObjectBufferPosition = some slot ∧
        slot.readLockHeld = false ∧
        res.2 = slots.set c.nextObjectBufferPosition
          { slot with readLockHeld := true, changeObjectLockHeld := false }) := by
  constructor
  · intro st slot t hc hg hs
    by_cases hz : t.statSize = 0 <;> simp [downloadBody, hc, hg, hs, hz]
  · intro c slots res h
    rw [nextObject] at h
    cases hget : slots.get? c.nextObjectBufferPosition with
    | none => rw [hget] at h; exact absurd h (by simp)
    | some slot =>
      rw [hget] at h
      by_cases hr : slot.readLockHeld = true
      · simp [hr] at h
      · have hr0 : slot.readLockHeld = false := by simpa using hr
        simp only [hr0, Bool.false_eq_true, if_false, Option.some.injEq] at h
        refine ⟨?_, ?_, slot, rfl, hr0, ?_⟩ <;> rw [← h]

/-- Witness for C7: a concrete download and a concrete drain with the toggle
off. -/
theorem toggle_off_leaves_counters_unchanged_witness :
    ((downloadBody WorkerLocal.init default
        { name := "w", bufferPosition := 0, getErr := false, statErr := false,
          statSize := 6, bytesRead := 6, copyErr := false, latValue := 3,
          collect := false }).st = WorkerLocal.init ∧
     (downloadBody WorkerLocal.init default
        { name := "w", bufferPosition := 0, getErr := false, statErr := false,
          statSize := 6, bytesRead := 6, copyErr := false, latValue := 3,
          collect := false }).slot.name = "w" ∧
     (downloadBody WorkerLocal.init default
        { name := "w", bufferPosition := 0, getErr := false, statErr := false,
          statSize := 6, bytesRead := 6, copyErr := false, latValue := 3,
          collect := false }).slot.readLockHeld = false ∧
     (downloadBody WorkerLocal.init default
        { name := "w", bufferPosition := 0, getErr := false, statErr := false,
          statSize := 6, bytesRead := 6, copyErr := false, latValue := 3,
          collect := false }).slot.size = (if (6 : Nat) = 0 then 0 else 6)) ∧
    ((⟨0, 11, 2⟩ : ConsumerState).bytesConsumed = 11 ∧
     (⟨0, 11, 2⟩ : ConsumerState).filesConsumed = 2 ∧
     ∃ slot,
       ([{ size := 7, name := "a", readLockHeld := false,
           changeObjectLockHeld := true }] : List Slot).get? 0 = some slot ∧
       slot.readLockHeld = false ∧
       ([{ size := 7, name := "a", readLockHeld := true,
           changeObjectLockHeld := false }] : List Slot)
         = ([{ size := 7, name := "a", readLockHeld := false,
               changeObjectLockHeld := true }] : List Slot).set 0
             { slot with readLockHeld := true, changeObjectLockHeld := false }) := by
  constructor
  · exact toggle_off_leaves_counters_unchanged.1 WorkerLocal.init default _
      rfl rfl rfl
  · exact toggle_off_leaves_counters_unchanged.2 ⟨0, 11, 2⟩
      [{ size := 7, name := "a", readLockHeld := false,
         changeObjectLockHeld := true }]
      (⟨0, 11, 2⟩,
       [{ size := 7, name := "a", readLockHeld := true,
          changeObjectLockHeld := false }]) rfl

/-! ## Claims about the consumer position, the feeder and shutdown -/

/-- Claim C1, evaluated at the failing input: NextObject never writes the
consumer position field, so after draining a ready slot with N = 2 the
position is still 0 rather than the (0 + 1) mod 2 = 1 the claim requires;
every call keeps draining slot 0. -/
theorem nextObject_position_never_advances :
    (nextObject ⟨0, 0, 0⟩
        [{ size := 7, name := "a", readLockHeld := false,
           changeObjectLockHeld := true },
         { size := 8, name := "b", readLockHeld := true,
           changeObjectLockHeld := true }] true).map
      (fun r => r.1.nextObjectBufferPosition) = some 0 ∧
    (0 : Nat) ≠ (0 + 1) % 2 := by
  constructor
  · rfl
  · decide

/-- Claim C2: once the done channel is closed, a feeder loop iteration
publishes no assignment (the select always takes the done case, never the
default branch), and hence any number of further iterations publishes no
assignment at all. -/
theorem feeder_publishes_nothing_after_done :
    (∀ (keys : List String) (N : Nat) (s : FeederState),
      (feederLoopIter keys N true s).2.1 = none) ∧
    (∀ (keys : List String) (N : Nat) (s : FeederState) (m : Nat),
      feederLoopRun keys N true s m = []) := by
  constructor
  · intro keys N s
    rfl
  · intro keys N s m
    induction m generalizing s with
    | zero => rfl
    | succ m ih => simp [feederLoopRun, feederLoopIter, ih]

/-- Counterexample for C3: invoking Close a second time after shutdown has
been signaled panics (Go panics when closing a closed channel), so it does
not have the same effect as invoking it once. -/
theorem close_second_invocation_panics :
    closeBenchmarkConsumer true = none ∧
    closeBenchmarkConsumer true ≠ closeBenchmarkConsumer false := by
  constructor
  · rfl
  · decide

/-- Claim C3 as amended: the stop operation is one-shot rather than
idempotent — the first invocation logs and closes the done channel, but a
second invocation after shutdown has been signaled panics, because closing an
already closed channel panics in Go. -/
theorem close_is_one_shot :
    closeBenchmarkConsumer false = some (["Finished consume call"], true) ∧
    closeBenchmarkConsumer true = none :=
  ⟨rfl, rfl⟩

/-! ## Claim about the order of feeder assignments -/

lemma feederInitialPass_length (keys : List String) (N bp : Nat) :
    (feederInitialPass keys N bp).length = keys.length := by
  induction keys generalizing bp with
  | nil => rfl
  | cons k rest ih => simp [feederInitialPass, ih]

lemma feederInitialPass_getElem (N : Nat) :
    ∀ (keys : List String) (bp j : Nat), bp < N → j < keys.length →
      (feederInitialPass keys N bp)[j]? = some (keys.getD j "", (bp + j) % N) := by
  intro keys
  induction keys with
  | nil =>
    intro bp j _ hj
    exact absurd hj (Nat.not_lt_zero j)
  | cons k rest ih =>
    intro bp j hbp hj
    have hN : 0 < N := by omega
    cases j with
    | zero =>
      simp [feederInitialPass, Nat.mod_eq_of_lt hbp]
    | succ j =>
      have h1 : (bp + 1) % N < N := Nat.mod_lt _ hN
      have hj2 : j < rest.length := by simpa using hj
      have hrec := ih ((bp + 1) % N) j h1 hj2
      have harg : ((bp + 1) % N + j) % N = (bp + (j + 1)) % N := by
        rw [Nat.mod_add_mod]
        congr 1
        omega
      simp [feederInitialPass, hrec, harg]

lemma feederLoopRun_getElem (keys : List String) (N : Nat) :
    ∀ (m i0 b0 j : Nat), i0 < keys.length → b0 < N → j < m →
      (feederLoopRun keys N false ⟨i0, b0⟩ m)[j]?
        = some (keys.getD ((i0 + j) % keys.length) "", (b0 + j) % N) := by
  intro m
  induction m with
  | zero =>
    intro i0 b0 j _ _ hj
    exact absurd hj (Nat.not_lt_zero j)
  | succ m ih =>
    intro i0 b0 j hi hb hj
    have hK : 0 < keys.length := by omega
    have hN : 0 < N := by omega
    cases j with
    | zero =>
      simp [feederLoopRun, feederLoopIter, Nat.mod_eq_of_lt hi, Nat.mod_eq_of_lt hb]
    | succ j =>
      have h1 : (i0 + 1) % keys.length < keys.length := Nat.mod_lt _ hK
      have h2 : (b0 + 1) % N < N := Nat.mod_lt _ hN
      have hrec := ih ((i0 + 1) % keys.length) ((b0 + 1) % N) j h1 h2 (by omega)
      have hargi : ((i0 + 1) % keys.length + j) % keys.length
          = (i0 + (j + 1)) % keys.length := by
        rw [Nat.mod_add_mod]
        congr 1
        omega
      have hargb : ((b0 + 1) % N + j) % N = (b0 + (j + 1)) % N := by
        rw [Nat.mod_add_mod]
        congr 1
        omega
      simp [feederLoopRun, feederLoopIter, hrec, hargi, hargb]

/-- Claim C8: with listed keys of positive count K and N slots, the j-th
assignment published by the feeder — counting from 0 across the initial pass
and all replay iterations — carries key number j mod K and slot index
j mod N. -/
theorem feeder_assignment_order (keys : List String) (N m j : Nat)
    (hK : 0 < keys.length) (hN : 0 < N) (hj : j < keys.length + m) :
    (feederAssignments keys N m)[j]?
      = some (keys.getD (j % keys.length) "", j % N) := by
  rw [feederAssignments]
  by_cases hlt : j < keys.length
  · rw [List.getElem?_append_left (by rw [feederInitialPass_length]; exact hlt)]
    rw [feederInitialPass_getElem N keys 0 j hN hlt]
    simp [Nat.mod_eq_of_lt hlt]
  · push_neg at hlt
    rw [List.getElem?_append_right (by rw [feederInitialPass_length]; exact hlt)]
    rw [feederInitialPass_length]
    rw [feederLoopRun_getElem keys N m 0 (keys.length % N) (j - keys.length) hK
        (Nat.mod_lt _ hN) (by omega)]
    have hj2 : keys.length + (j - keys.length) = j := by omega
    have e1 : (0 + (j - keys.length)) % keys.length = j % keys.length := by
      rw [Nat.zero_add]
      conv_rhs => rw [← hj2]
      rw [Nat.add_mod_left]
    have e2 : (keys.length % N + (j - keys.length)) % N = j % N := by
      rw [Nat.mod_add_mod, hj2]
    rw [e1, e2]

/-- Witness for C8: for keys a, b, c and N = 2, the fourth assignment
(j = 3) is key a to slot 1, as in the scenario of the spec. -/
theorem feeder_assignment_order_witness :
    (feederAssignments ["a", "b", "c"] 2 1)[3]? = some ("a", 1) :=
  feeder_assignment_order ["a", "b", "c"] 2 1 3 (by decide) (by decide) (by decide)

/-! ## Claim about the first-byte recorder -/

/-- Claim C9: a Read on the first-byte recorder with a non-empty buffer
before any timestamp has been recorded requests exactly one byte from the
underlying reader and records the current timestamp if and only if that read
returns at least one byte; once a timestamp has been recorded, or when the
buffer is empty, Read delegates the full request to the underlying reader and
leaves the recorder state unchanged. -/
theorem first_byte_read_behavior (f : FirstByteRecorderState)
    (rs : List (Nat × Bool)) (plen now : Nat) :
    (f.t = none → plen ≠ 0 →
      (fbrRead f rs plen now).requested = 1 ∧
      ((fbrRead f rs plen now).fbr.t = some now ↔ 0 < (fbrRead f rs plen now).n)) ∧
    (f.t.isSome = true ∨ plen = 0 →
      (fbrRead f rs plen now).requested = plen ∧
      (fbrRead f rs plen now).fbr = f ∧
      (fbrRead f rs plen now).n = (readerRead rs plen).1.1 ∧
      (fbrRead f rs plen now).err = (readerRead rs plen).1.2 ∧
      (fbrRead f rs plen now).reader = (readerRead rs plen).2) := by
  constructor
  · intro ht hp
    have hcond : ¬(f.t.isSome = true ∨ plen = 0) := by
      simp [ht, hp]
    rw [fbrRead, if_neg hcond]
    by_cases hn : 0 < (readerRead rs 1).1.1
    · rw [if_pos hn]
      simp [hn]
    · rw [if_neg hn]
      simp [hn, ht]
  · intro hcond
    rw [fbrRead, if_pos hcond]
    exact ⟨rfl, rfl, rfl, rfl, rfl⟩

/-- Witness for C9: a fresh recorder reading a 3-byte buffer from a reader
with 5 bytes available requests a single byte and records time 42, and a
recorder that already holds a timestamp passes the request through. -/
theorem first_byte_read_behavior_witness :
    ((fbrRead ⟨none⟩ [(5, false)] 3 42).requested = 1 ∧
     ((fbrRead ⟨none⟩ [(5, false)] 3 42).fbr.t = some 42 ↔
       0 < (fbrRead ⟨none⟩ [(5, false)] 3 42).n)) ∧
    ((fbrRead ⟨some 7⟩ [(5, false)] 3 42).requested = 3 ∧
     (fbrRead ⟨some 7⟩ [(5, false)] 3 42).fbr = ⟨some 7⟩ ∧
     (fbrRead ⟨some 7⟩ [(5, false)] 3 42).n = (readerRead [(5, false)] 3).1.1 ∧
     (fbrRead ⟨some 7⟩ [(5, false)] 3 42).err = (readerRead [(5, false)] 3).1.2 ∧
     (fbrRead ⟨some 7⟩ [(5, false)] 3 42).reader = (readerRead [(5, false)] 3).2) :=
  ⟨(first_byte_read_behavior ⟨none⟩ [(5, false)] 3 42).1 rfl (by decide),
   (first_byte_read_behavior ⟨some 7⟩ [(5, false)] 3 42).2 (Or.inl rfl)⟩

/-! ## Claim about worker-fatal errors starving the consumer and Metrics -/

/-- Claim C10: a GetObject or Stat error makes the worker return without
sending its counters (workerRun yields no sent value) and without releasing
any readLock — the slot ring changes only by the already-written name; a
NextObject call that reaches a slot whose readLock is held blocks; and
Metrics blocks whenever one of its channels carries fewer than the expected
number of worker contributions. -/
theorem worker_error_starves_consumer_and_metrics :
    (∀ (st : WorkerLocal) (slots : List Slot) (t : TaskInput)
        (rest : List WorkerEvent), t.getErr = true ∨ t.statErr = true →
      (workerRun st slots (WorkerEvent.task t :: rest)).1 = none ∧
      (workerRun st slots (WorkerEvent.task t :: rest)).2
        = slots.set t.bufferPosition
            { slots.getD t.bufferPosition default with name := t.name }) ∧
    (∀ (c : ConsumerState) (slots : List Slot) (collect : Bool) (slot : Slot),
      slots.get? c.nextObjectBufferPosition = some slot →
      slot.readLockHeld = true →
      nextObject c slots collect = none) ∧
    (∀ (conc : Nat) (latSent : List (List Int)) (filesSent bytesSent : List Nat)
        (c : ConsumerState), filesSent.length < conc →
      metricsCollect conc latSent filesSent bytesSent c = none) := by
  refine ⟨?_, ?_, ?_⟩
  · intro st slots t rest h
    rcases h with h | h
    · constructor <;> simp [workerRun, downloadBody, h]
    · by_cases hg : t.getErr = true <;>
        constructor <;> simp [workerRun, downloadBody, h, hg]
  · intro c slots collect slot hget hr
    rw [nextObject, hget]
    simp [hr]
  · intro conc latSent filesSent bytesSent c h
    rw [metricsCollect, if_neg]
    omega

/-- Witness for C10: a concrete GetObject failure, a concrete blocked
NextObject on the construction-state slot, and a concrete Metrics call one
contribution short. -/
theorem worker_error_starves_consumer_and_metrics_witness :
    ((workerRun WorkerLocal.init [default]
        [WorkerEvent.task
          { name := "k", bufferPosition := 0, getErr := true, statErr := false,
            statSize := 0, bytesRead := 0, copyErr := false, latValue := 0,
            collect := true }]).1 = none ∧
     (workerRun WorkerLocal.init [default]
        [WorkerEvent.task
          { name := "k", bufferPosition := 0, getErr := true, statErr := false,
            statSize := 0, bytesRead := 0, copyErr := false, latValue := 0,
            collect := true }]).2
       = ([default] : List Slot).set 0
           { (([default] : List Slot).getD 0 default) with name := "k" }) ∧
    nextObject ⟨0, 0, 0⟩ [default] true = none ∧
    metricsCollect 2 [[], []] [3] [4, 5] ⟨0, 0, 0⟩ = none :=
  ⟨worker_error_starves_consumer_and_metrics.1 WorkerLocal.init [default] _ []
     (Or.inl rfl),
   worker_error_starves_consumer_and_metrics.2.1 ⟨0, 0, 0⟩ [default] true
     default rfl rfl,
   worker_error_starves_consumer_and_metrics.2.2 2 [[], []] [3] [4, 5]
     ⟨0, 0, 0⟩ (by decide)⟩

end Cartero
